import Mathlib

/-!
Shallow embedding of `src/file_metadata.py` (the file-metadata inspection
utility).  Paths are modelled as strings, the filesystem as a lookup
function from path strings to entries, and the Python functions
`compute_sha1`, `get_file_metadata` and `main` as Lean functions over that
model.  Machine-level details (Unix stat results, `pwd`/`grp` lookups,
`mimetypes`) are modelled by explicit environment records; byte strings are
`List Nat`.
-/

/-! ## Pure path-string parsing (pathlib semantics)

`pathlib.PurePosixPath` parses a path by splitting on `/` and dropping
empty and `"."` components.  `name` is the last component, `parent` drops
the last component (rendering `"."` for an exhausted relative path and
`"/"` for an exhausted absolute one).  `stem`/`suffix` split the name at
its last dot (CPython: `i = name.rfind('.'); 0 < i < len(name)-1`), and
`suffixes` is `['.'+s for s in name.lstrip('.').split('.')[1:]]` unless the
name ends with a dot.  String primitives are re-implemented on `List Char`
by structural recursion so all results evaluate by kernel reduction. -/

/-- Python `str.split(sep)` for a one-character separator. -/
def splitOnChar (c : Char) : List Char → List (List Char)
  | [] => [[]]
  | x :: xs =>
    let r := splitOnChar c xs
    if x = c then [] :: r
    else
      match r with
      | h :: t => (x :: h) :: t
      | [] => [[x]]

/-- Join chunks with a one-character separator (inverse of `splitOnChar`). -/
def joinWith (sep : Char) : List (List Char) → List Char
  | [] => []
  | [x] => x
  | x :: xs => x ++ sep :: joinWith sep xs

def pathIsAbs (p : String) : Bool :=
  match p.data with
  | '/' :: _ => true
  | _ => false

def pathPartsL (p : String) : List (List Char) :=
  (splitOnChar '/' p.data).filter (fun s => !s.isEmpty && s ≠ ['.'])

def pathName (p : String) : String :=
  ⟨((pathPartsL p).getLast?).getD []⟩

def renderParts (abs : Bool) (parts : List (List Char)) : String :=
  if abs then ⟨'/' :: joinWith '/' parts⟩
  else if parts = [] then "." else ⟨joinWith '/' parts⟩

def pathParent (p : String) : String :=
  renderParts (pathIsAbs p) (pathPartsL p).dropLast

/-- Index of the last `'.'` in a character list (Python `str.rfind('.')`),
`none` when absent. -/
def rfindDot (s : List Char) : Option Nat :=
  match s.reverse.findIdx? (fun c => c = '.') with
  | some j => some (s.length - 1 - j)
  | none => none

/-- Python `PurePath.stem` applied to a name: strip the last suffix only. -/
def pathStemName (name : String) : String :=
  let s := name.data
  match rfindDot s with
  | some i => if 0 < i ∧ i < s.length - 1 then ⟨s.take i⟩ else name
  | none => name

/-- Python `PurePath.suffix` applied to a name. -/
def pathSuffixName (name : String) : String :=
  let s := name.data
  match rfindDot s with
  | some i => if 0 < i ∧ i < s.length - 1 then ⟨s.drop i⟩ else ""
  | none => ""

/-- Python `PurePath.suffixes` applied to a name. -/
def pathSuffixesName (name : String) : List String :=
  if name.data.getLast? = some '.' then []
  else
    ((splitOnChar '.' (name.data.dropWhile (fun c => c = '.'))).tail).map
      (fun s => (⟨'.' :: s⟩ : String))

def pathStemOf (p : String) : String := pathStemName (pathName p)

def pathSuffixOf (p : String) : String := pathSuffixName (pathName p)

def pathSuffixesOf (p : String) : List String := pathSuffixesName (pathName p)

/-- Python `oct`: `"0o"` followed by the octal digits. -/
def pyOct (n : Nat) : String := "0o" ++ ⟨Nat.toDigits 8 n⟩

example : pathName "archive.tar.gz" = "archive.tar.gz" := by decide
example : pathStemOf "archive.tar.gz" = "archive.tar" := by decide
example : pathSuffixOf "archive.tar.gz" = ".gz" := by decide
example : pathSuffixesOf "archive.tar.gz" = [".tar", ".gz"] := by decide
example : pathParent "file.txt" = "." := by decide
example : pathParent "/a/b/c.txt" = "/a/b" := by decide
example : pathName "dir/link.txt" = "link.txt" := by decide
example : pyOct (Nat.land 33188 511) = "0o644" := by decide

/-! ## SHA-1 (`hashlib.sha1`)

A direct implementation of SHA-1 over byte lists (`List Nat`, each < 256),
with 32-bit words as `Nat` reduced mod `2^32`.  `hashlib`'s incremental
object is modelled semantically: its state is the byte sequence fed so far
(`sha1Update` appends) and `sha1Hexdigest` hashes the accumulated bytes —
exactly the library's documented contract `update(a); update(b) ≡
update(a++b)`. -/

def w32 (n : Nat) : Nat := n % 4294967296

def rotl32 (n s : Nat) : Nat :=
  Nat.lor (w32 (Nat.shiftLeft n s)) (Nat.shiftRight n (32 - s))

/-- SHA-1 message padding: `0x80`, zeros to 56 mod 64, then the bit length
as 8 big-endian bytes. -/
def sha1Pad (msg : List Nat) : List Nat :=
  let l := msg.length
  let z := (119 - (l % 64)) % 64
  let bitLen := l * 8
  msg ++ 128 :: List.replicate z 0 ++
    (List.range 8).map (fun i => bitLen / 2 ^ (8 * (7 - i)) % 256)

/-- Big-endian 4-byte groups to 32-bit words. -/
def bytesToWords : List Nat → List Nat
  | b0 :: b1 :: b2 :: b3 :: rest =>
    (((b0 * 256 + b1) * 256 + b2) * 256 + b3) :: bytesToWords rest
  | _ => []

/-- Extend 16 words to the 80-word message schedule. -/
def sha1Extend (w : Array Nat) : Array Nat :=
  (List.range 64).foldl
    (fun w i =>
      w.push (rotl32
        (Nat.xor (Nat.xor (w.getD (i + 13) 0) (w.getD (i + 8) 0))
          (Nat.xor (w.getD (i + 2) 0) (w.getD i 0))) 1))
    w

def sha1F (i b c d : Nat) : Nat :=
  if i < 20 then Nat.lor (Nat.land b c) (Nat.land (Nat.xor b 4294967295) d)
  else if i < 40 then Nat.xor (Nat.xor b c) d
  else if i < 60 then
    Nat.lor (Nat.lor (Nat.land b c) (Nat.land b d)) (Nat.land c d)
  else Nat.xor (Nat.xor b c) d

def sha1K (i : Nat) : Nat :=
  if i < 20 then 1518500249
  else if i < 40 then 1859775393
  else if i < 60 then 2400959708
  else 3395469782

def sha1Round (st : Nat × Nat × Nat × Nat × Nat) (iw : Nat × Nat) :
    Nat × Nat × Nat × Nat × Nat :=
  let (a, b, c, d, e) := st
  let (i, w) := iw
  let tmp := w32 (rotl32 a 5 + sha1F i b c d + e + sha1K i + w)
  (tmp, a, rotl32 b 30, c, d)

/-- Process one 64-byte block into the running `h0..h4`. -/
def sha1Block (h : Nat × Nat × Nat × Nat × Nat) (block : List Nat) :
    Nat × Nat × Nat × Nat × Nat :=
  let (h0, h1, h2, h3, h4) := h
  let ws := (sha1Extend (Array.mk (bytesToWords block))).toList
  let (a, b, c, d, e) :=
    (((List.range 80).zip ws).foldl sha1Round (h0, h1, h2, h3, h4))
  (w32 (h0 + a), w32 (h1 + b), w32 (h2 + c), w32 (h3 + d), w32 (h4 + e))

/-- Fixed-size chunking of a byte stream: the successive values of
`f.read(k)` in `iter(lambda: f.read(k), b"")` — each read returns at most
`k` bytes and the loop stops at the first empty read (immediately when
`k = 0`, since `read(0)` returns `b""`). -/
def readChunks (k : Nat) (content : List Nat) : List (List Nat) :=
  if h : k = 0 then []
  else if h2 : content = [] then []
  else content.take k :: readChunks k (content.drop k)
termination_by content.length
decreasing_by
  simp only [List.length_drop]
  exact Nat.sub_lt (List.length_pos.mpr h2) (Nat.pos_of_ne_zero h)

def hexDigit (n : Nat) : Char :=
  if n < 10 then Char.ofNat (48 + n) else Char.ofNat (87 + n)

def toHex8 (n : Nat) : List Char :=
  (List.range 8).map (fun i => hexDigit (n / 16 ^ (7 - i) % 16))

/-- SHA-1 of a full byte list as a 40-character lowercase hex string. -/
def sha1hex (msg : List Nat) : String :=
  let blocks := readChunks 64 (sha1Pad msg)
  let (h0, h1, h2, h3, h4) :=
    blocks.foldl sha1Block
      (1732584193, 4023233417, 2562383102, 271733878, 3285377520)
  ⟨toHex8 h0 ++ toHex8 h1 ++ toHex8 h2 ++ toHex8 h3 ++ toHex8 h4⟩

/-- State of a `hashlib.sha1()` accumulator: the bytes fed so far. -/
def sha1Init : List Nat := []

/-- Model of `sha1.update(chunk)`. -/
def sha1Update (s chunk : List Nat) : List Nat := s ++ chunk

/-- Model of `sha1.hexdigest()`. -/
def sha1Hexdigest (s : List Nat) : String := sha1hex s

/-! ## Filesystem and OS environment model

The filesystem is a lookup from path strings to entries.  An entry has a
kind (regular file / directory / symlink-with-target / other), the stat
attributes of the entry itself, and — for readable regular files — its
byte content, or the error that opening/reading it raises.  Follow-symlink
operations (`stat`, `is_file`, `is_dir`, `exists`, `open`) act on the entry
reached after resolving symlink chains; `is_symlink` inspects the entry
itself (an `lstat`-based, no-follow check). -/

inductive EntryKind
  | regular
  | directory
  | symlink (target : String)
  | other
  deriving DecidableEq

/-- The result of `os.stat` on an entry. -/
structure StatInfo where
  st_size : Nat
  st_ctime : Int
  st_mtime : Int
  st_atime : Int
  st_mode : Nat
  st_nlink : Nat
  st_uid : Nat
  st_gid : Nat
  deriving DecidableEq

/-- The Python exception classes the program distinguishes.
`permissionError`, `ioError` and `fileNotFound` are `OSError` subclasses;
`keyError` is not. -/
inductive PyErr
  | keyError
  | permissionError
  | ioError
  | fileNotFound
  | unexpected
  deriving DecidableEq

instance {ε α : Type} [DecidableEq ε] [DecidableEq α] :
    DecidableEq (Except ε α) := fun a b =>
  match a, b with
  | .ok x, .ok y =>
    if h : x = y then .isTrue (by rw [h]) else .isFalse (by simp [h])
  | .error x, .error y =>
    if h : x = y then .isTrue (by rw [h]) else .isFalse (by simp [h])
  | .ok _, .error _ => .isFalse (by simp)
  | .error _, .ok _ => .isFalse (by simp)

structure FSEntry where
  kind : EntryKind
  statInfo : StatInfo
  content : Except PyErr (List Nat)
  deriving DecidableEq

structure FS where
  cwd : String
  entries : String → Option FSEntry

/-- Follow a chain of symlinks to the path of a non-symlink entry (`none`
on a dangling link or when the fuel — the OS's loop limit — runs out). -/
def resolvePath (fs : FS) : Nat → String → Option String
  | 0, _ => none
  | fuel + 1, p =>
    match fs.entries p with
    | none => none
    | some e =>
      match e.kind with
      | .symlink t => resolvePath fs fuel t
      | _ => some p

/-- The entry a follow-symlinks operation on `p` acts on. -/
def finalEntry (fs : FS) (p : String) : Option FSEntry :=
  (resolvePath fs 40 p).bind fs.entries

def isKindRegular : EntryKind → Bool
  | .regular => true
  | _ => false

def isKindDir : EntryKind → Bool
  | .directory => true
  | _ => false

def isKindSymlink : EntryKind → Bool
  | .symlink _ => true
  | _ => false

/-- Python `Path.stat()` (follows symlinks); `none` models `FileNotFoundError`. -/
def pyStat (fs : FS) (p : String) : Option StatInfo :=
  (finalEntry fs p).map (fun e => e.statInfo)

/-- Python `Path.is_file()`: follow-stat, `False` on any `OSError`. -/
def pyIsFile (fs : FS) (p : String) : Bool :=
  match finalEntry fs p with
  | some e => isKindRegular e.kind
  | none => false

/-- Python `Path.is_dir()`: follow-stat, `False` on any `OSError`. -/
def pyIsDir (fs : FS) (p : String) : Bool :=
  match finalEntry fs p with
  | some e => isKindDir e.kind
  | none => false

/-- Python `Path.is_symlink()`: an `lstat` of the path itself, no following. -/
def pyIsSymlink (fs : FS) (p : String) : Bool :=
  match fs.entries p with
  | some e => isKindSymlink e.kind
  | none => false

/-- Python `Path.exists()` (follows symlinks). -/
def pyExists (fs : FS) (p : String) : Bool :=
  (finalEntry fs p).isSome

def absolutize (fs : FS) (p : String) : String :=
  if pathIsAbs p then p else fs.cwd ++ "/" ++ p

/-- Python `Path.resolve()`: make absolute and resolve symlinks. -/
def pyResolve (fs : FS) (p : String) : String :=
  absolutize fs ((resolvePath fs 40 p).getD p)

/-- Model of `path.open("rb")` followed by reading to end-of-stream: the content of
the resolved entry, or the exception that opening/reading raises. -/
def pyOpenRead (fs : FS) (p : String) : Except PyErr (List Nat) :=
  match finalEntry fs p with
  | none => .error .fileNotFound
  | some e => e.content

/-- The digest loop of `compute_sha1` with the chunk size a parameter (the
spec's chunked-equivalence test reimplements it with sizes 1, 64, 8192). -/
def sha1ChunkedDigest (k : Nat) (content : List Nat) : String :=
  sha1Hexdigest ((readChunks k content).foldl sha1Update sha1Init)

/-- Lines 40–46: open the file, feed 8192-byte chunks into the
accumulator, return the hex digest; exceptions propagate. -/
def compute_sha1 (fs : FS) (p : String) : Except PyErr String :=
  match pyOpenRead fs p with
  | .error e => .error e
  | .ok content => .ok (sha1ChunkedDigest 8192 content)

/-- Platform services used by `get_file_metadata`: the `pwd`/`grp` account
databases (whose lookups either return a name or raise — `KeyError` for an
unknown id, an `OSError` for directory-service failures) and the
`mimetypes` extension table. -/
structure SysEnv where
  getpwuid : Nat → Except PyErr String
  getgrgid : Nat → Except PyErr String
  guessMime : String → Option String

/-- Lines 62–65: `try: pwd.getpwuid(uid).pw_name except KeyError: None`.
Only `KeyError` is caught; any other exception propagates. -/
def lookupOwner (env : SysEnv) (uid : Nat) : Except PyErr (Option String) :=
  match env.getpwuid uid with
  | .ok n => .ok (some n)
  | .error .keyError => .ok none
  | .error e => .error e

/-- Lines 66–69: same for `grp.getgrgid`. -/
def lookupGroup (env : SysEnv) (gid : Nat) : Except PyErr (Option String) :=
  match env.getgrgid gid with
  | .ok n => .ok (some n)
  | .error .keyError => .ok none
  | .error e => .error e

/-- Lines 73–78: optional digest; only `PermissionError` is converted to
the `"(access denied)"` sentinel, any other exception propagates. -/
def digestStep (fs : FS) (p : String) (compute_hash : Bool) :
    Except PyErr (Option String) :=
  if compute_hash then
    match compute_sha1 fs p with
    | .ok h => .ok (some h)
    | .error .permissionError => .ok (some "(access denied)")
    | .error e => .error e
  else .ok none

/-- The `FileMeta` dataclass (timestamps kept as raw epoch seconds; the
`datetime.fromtimestamp` rendering is presentation only). -/
structure FileMeta where
  full_path : String
  name : String
  stem : String
  suffix : String
  suffixes : List String
  parent : String
  size_bytes : Nat
  created : Int
  modified : Int
  accessed : Int
  mode : Nat
  permissions : String
  n_links : Nat
  owner_uid : Nat
  owner_name : Option String
  group_gid : Nat
  group_name : Option String
  is_file : Bool
  is_dir : Bool
  is_symlink : Bool
  mime_type : Option String
  sha1_hash : Option String
  deriving DecidableEq

/-- One OS-level query issued by the program.  `statQ`/`lstatQ` are the
stat-equivalent attribute queries; `resolveQ` is the path-resolution work
of `Path.resolve()`; `openReadQ` is the digest's open-and-read;
`getpwuidQ`/`getgrgidQ` are account-database lookups. -/
inductive Syscall
  | statQ (p : String)
  | lstatQ (p : String)
  | resolveQ (p : String)
  | openReadQ (p : String)
  | getpwuidQ (uid : Nat)
  | getgrgidQ (gid : Nat)
  deriving DecidableEq

def isStatEquiv : Syscall → Bool
  | .statQ _ => true
  | .lstatQ _ => true
  | _ => false

/-- Lines 48–103, instrumented: the result of `get_file_metadata` paired
with the ordered list of OS queries it issues (one element per Python-level
filesystem or account call, in source order: `path.stat()`; the two
account lookups; the optional digest read; then, building the record,
`path.resolve()`, `path.is_file()`, `path.is_dir()`, `path.is_symlink()`).
The pure path-string fields issue nothing. -/
def get_file_metadata_tr (env : SysEnv) (fs : FS) (path : String)
    (compute_hash : Bool) : Except PyErr FileMeta × List Syscall :=
  match pyStat fs path with
  | none => (.error .fileNotFound, [.statQ path])
  | some stat_info =>
    match lookupOwner env stat_info.st_uid with
    | .error e => (.error e, [.statQ path, .getpwuidQ stat_info.st_uid])
    | .ok owner_name =>
      match lookupGroup env stat_info.st_gid with
      | .error e =>
        (.error e,
         [.statQ path, .getpwuidQ stat_info.st_uid,
          .getgrgidQ stat_info.st_gid])
      | .ok group_name =>
        let mime_type := env.guessMime path
        match digestStep fs path compute_hash with
        | .error e =>
          (.error e,
           [.statQ path, .getpwuidQ stat_info.st_uid,
            .getgrgidQ stat_info.st_gid, .openReadQ path])
        | .ok sha1 =>
          (.ok
            { full_path := pyResolve fs path
              name := pathName path
              stem := pathStemOf path
              suffix := pathSuffixOf path
              suffixes := pathSuffixesOf path
              parent := pathParent path
              size_bytes := stat_info.st_size
              created := stat_info.st_ctime
              modified := stat_info.st_mtime
              accessed := stat_info.st_atime
              mode := stat_info.st_mode
              permissions := pyOct (Nat.land stat_info.st_mode 511)
              n_links := stat_info.st_nlink
              owner_uid := stat_info.st_uid
              owner_name := owner_name
              group_gid := stat_info.st_gid
              group_name := group_name
              is_file := pyIsFile fs path
              is_dir := pyIsDir fs path
              is_symlink := pyIsSymlink fs path
              mime_type := mime_type
              sha1_hash := sha1 },
           [.statQ path, .getpwuidQ stat_info.st_uid,
            .getgrgidQ stat_info.st_gid] ++
             (if compute_hash then [.openReadQ path] else []) ++
             [.resolveQ path, .statQ path, .statQ path, .lstatQ path])

/-- The function `get_file_metadata` (lines 48–103): the returned record, or the
exception that propagates. -/
def get_file_metadata (env : SysEnv) (fs : FS) (path : String)
    (compute_hash : Bool) : Except PyErr FileMeta :=
  (get_file_metadata_tr env fs path compute_hash).1

/-- The ordered OS-query trace of one `get_file_metadata` call. -/
def metadataSyscalls (env : SysEnv) (fs : FS) (path : String)
    (compute_hash : Bool) : List Syscall :=
  (get_file_metadata_tr env fs path compute_hash).2

/-- Outcome of `main` (lines 129–159), with the record kept for
inspection; every `err*` constructor prints a message and returns 1. -/
inductive ExitOutcome
  | success (m : FileMeta)
  | errNotFound
  | errNotAFile
  | errAccessDenied
  | errOS
  | errUnexpected
  deriving DecidableEq

/-- The driver `main`, lines 136–159 (renamed: Lean reserves `main` for programs):
validation then collection; `PermissionError`, other `OSError`s and
remaining exceptions are caught in that order. -/
def pyMain (env : SysEnv) (fs : FS) (path : String) (sha1Flag : Bool) :
    ExitOutcome :=
  if !pyExists fs path then .errNotFound
  else if !pyIsFile fs path then .errNotAFile
  else
    match get_file_metadata env fs path sha1Flag with
    | .ok m => .success m
    | .error .permissionError => .errAccessDenied
    | .error .fileNotFound => .errOS
    | .error .ioError => .errOS
    | .error .keyError => .errUnexpected
    | .error .unexpected => .errUnexpected

def exitCode : ExitOutcome → Nat
  | .success _ => 0
  | _ => 1

/-! ## Concrete fixtures

A small filesystem and account environments used by the concrete
instantiations below.  Mode values: `0o100644 = 33188` (regular),
`0o40755 = 16877` (directory), `0o120777 = 41471` (symlink). -/

def mkStat (size mode : Nat) : StatInfo :=
  { st_size := size
    st_ctime := 1700000000
    st_mtime := 1700000001
    st_atime := 1700000002
    st_mode := mode
    st_nlink := 1
    st_uid := 1000
    st_gid := 1000 }

def fs0 : FS :=
  { cwd := "/home/user"
    entries := fun p =>
      if p = "file.txt" then some ⟨.regular, mkStat 2 33188, .ok [104, 105]⟩
      else if p = "archive.tar.gz" then
        some ⟨.regular, mkStat 2 33188, .ok [31, 139]⟩
      else if p = "link" then
        some ⟨.symlink "/target", mkStat 7 41471, .error .ioError⟩
      else if p = "/target" then some ⟨.regular, mkStat 1 33188, .ok [97]⟩
      else if p = "somedir" then
        some ⟨.directory, mkStat 4096 16877, .error .ioError⟩
      else if p = "secret" then
        some ⟨.regular, mkStat 5 33024, .error .permissionError⟩
      else if p = "flaky" then some ⟨.regular, mkStat 3 33188, .error .ioError⟩
      else none }

/-- Account databases with no mapping for any id (every lookup raises
`KeyError`), and an empty MIME table. -/
def env0 : SysEnv :=
  { getpwuid := fun _ => .error .keyError
    getgrgid := fun _ => .error .keyError
    guessMime := fun _ => none }

/-- Account databases that know id 1000. -/
def envNames : SysEnv :=
  { getpwuid := fun u => if u = 1000 then .ok "alice" else .error .keyError
    getgrgid := fun g => if g = 1000 then .ok "staff" else .error .keyError
    guessMime := fun _ => none }

/-- The record `get_file_metadata env0 fs0 "file.txt" false` produces. -/
def fileTxtMeta : FileMeta :=
  { full_path := "/home/user/file.txt", name := "file.txt", stem := "file"
    suffix := ".txt", suffixes := [".txt"], parent := "."
    size_bytes := 2, created := 1700000000, modified := 1700000001
    accessed := 1700000002, mode := 33188, permissions := "0o644"
    n_links := 1, owner_uid := 1000, owner_name := none
    group_gid := 1000, group_name := none
    is_file := true, is_dir := false, is_symlink := false
    mime_type := none, sha1_hash := none }

/-- The record `get_file_metadata env0 fs0 "archive.tar.gz" false`
produces. -/
def tarMeta : FileMeta :=
  { full_path := "/home/user/archive.tar.gz", name := "archive.tar.gz"
    stem := "archive.tar", suffix := ".gz", suffixes := [".tar", ".gz"]
    parent := ".", size_bytes := 2, created := 1700000000
    modified := 1700000001, accessed := 1700000002, mode := 33188
    permissions := "0o644", n_links := 1, owner_uid := 1000
    owner_name := none, group_gid := 1000, group_name := none
    is_file := true, is_dir := false, is_symlink := false
    mime_type := none, sha1_hash := none }

/-- The record `get_file_metadata env0 fs0 "secret" true` produces: the
content read raises `PermissionError`, so the digest field holds the
sentinel. -/
def secretMeta : FileMeta :=
  { full_path := "/home/user/secret", name := "secret", stem := "secret"
    suffix := "", suffixes := [], parent := "."
    size_bytes := 5, created := 1700000000, modified := 1700000001
    accessed := 1700000002, mode := 33024, permissions := "0o400"
    n_links := 1, owner_uid := 1000, owner_name := none
    group_gid := 1000, group_name := none
    is_file := true, is_dir := false, is_symlink := false
    mime_type := none, sha1_hash := some "(access denied)" }

/-- An account environment whose directory service is unavailable: every
lookup raises an `OSError` rather than the not-found `KeyError` (as the
CPython `pwd`/`grp` modules can when the underlying lookup fails with an
unexpected `errno`). -/
def envBroken : SysEnv :=
  { getpwuid := fun _ => Except.error PyErr.ioError
    getgrgid := fun _ => Except.error PyErr.ioError
    guessMime := fun _ => none }

/-- The record `get_file_metadata envNames fs0 "link" false` produces:
stat attributes of the resolved target, path-string fields of the link. -/
def linkMeta : FileMeta :=
  { full_path := "/target", name := "link", stem := "link"
    suffix := "", suffixes := [], parent := "."
    size_bytes := 1, created := 1700000000, modified := 1700000001
    accessed := 1700000002, mode := 33188, permissions := "0o644"
    n_links := 1, owner_uid := 1000, owner_name := some "alice"
    group_gid := 1000, group_name := some "staff"
    is_file := true, is_dir := false, is_symlink := true
    mime_type := none, sha1_hash := none }

/-! ## Helper lemmas -/

lemma foldl_sha1Update (l : List (List Nat)) (acc : List Nat) :
    l.foldl sha1Update acc = acc ++ l.flatten := by
  induction l generalizing acc with
  | nil => simp
  | cons x xs ih => simp [sha1Update, ih]

lemma readChunks_flatten_aux (k : Nat) (hk : k ≠ 0) (n : Nat) :
    ∀ content : List Nat, content.length = n →
      (readChunks k content).flatten = content := by
  induction n using Nat.strong_induction_on with
  | _ n ih =>
    intro content hn
    rw [readChunks.eq_def, dif_neg hk]
    by_cases hc : content = []
    · rw [dif_pos hc, hc]
      rfl
    · have hlt : (content.drop k).length < n := by
        rw [List.length_drop, ← hn]
        exact Nat.sub_lt (List.length_pos.mpr hc) (Nat.pos_of_ne_zero hk)
      rw [dif_neg hc, List.flatten_cons, ih _ hlt _ rfl,
        List.take_append_drop]

lemma readChunks_flatten (k : Nat) (hk : k ≠ 0) (content : List Nat) :
    (readChunks k content).flatten = content :=
  readChunks_flatten_aux k hk content.length content rfl

lemma readChunks_length_le_aux (k : Nat) (n : Nat) :
    ∀ content c : List Nat, content.length = n →
      c ∈ readChunks k content → c.length ≤ k := by
  induction n using Nat.strong_induction_on with
  | _ n ih =>
    intro content c hn hc
    rw [readChunks.eq_def] at hc
    split at hc
    · simp at hc
    · split at hc
      · simp at hc
      · rcases List.mem_cons.mp hc with h | h
        · rw [h, List.length_take]
          exact min_le_left k content.length
        · have hlt : (content.drop k).length < n := by
            rw [List.length_drop, ← hn]
            exact Nat.sub_lt (List.length_pos.mpr (by assumption))
              (Nat.pos_of_ne_zero (by assumption))
          exact ih _ hlt _ c rfl h

lemma readChunks_length_le (k : Nat) (content c : List Nat)
    (hc : c ∈ readChunks k content) : c.length ≤ k :=
  readChunks_length_le_aux k content.length content c rfl hc

lemma compute_sha1_ok (fs : FS) (p : String) (content : List Nat)
    (h : pyOpenRead fs p = .ok content) :
    compute_sha1 fs p = .ok (sha1ChunkedDigest 8192 content) := by
  unfold compute_sha1
  rw [h]

/-- Anatomy of a successful `get_file_metadata` call: the stat and the
three fallible steps it went through, every field of the record it built,
and the OS-query trace it issued. -/
lemma get_tr_ok (env : SysEnv) (fs : FS) (p : String) (flag : Bool)
    (m : FileMeta) (h : get_file_metadata env fs p flag = .ok m) :
    ∃ s ow gw dg,
      pyStat fs p = some s ∧
      lookupOwner env s.st_uid = .ok ow ∧
      lookupGroup env s.st_gid = .ok gw ∧
      digestStep fs p flag = .ok dg ∧
      m = { full_path := pyResolve fs p, name := pathName p
            stem := pathStemOf p, suffix := pathSuffixOf p
            suffixes := pathSuffixesOf p, parent := pathParent p
            size_bytes := s.st_size, created := s.st_ctime
            modified := s.st_mtime, accessed := s.st_atime
            mode := s.st_mode
            permissions := pyOct (Nat.land s.st_mode 511)
            n_links := s.st_nlink, owner_uid := s.st_uid
            owner_name := ow, group_gid := s.st_gid, group_name := gw
            is_file := pyIsFile fs p, is_dir := pyIsDir fs p
            is_symlink := pyIsSymlink fs p
            mime_type := env.guessMime p, sha1_hash := dg } ∧
      metadataSyscalls env fs p flag =
        [.statQ p, .getpwuidQ s.st_uid, .getgrgidQ s.st_gid] ++
          (if flag then [.openReadQ p] else []) ++
          [.resolveQ p, .statQ p, .statQ p, .lstatQ p] := by
  unfold get_file_metadata get_file_metadata_tr at h
  cases hstat : pyStat fs p with
  | none =>
    simp only [hstat] at h
    exact Except.noConfusion h
  | some s =>
    simp only [hstat] at h
    cases hown : lookupOwner env s.st_uid with
    | error e =>
      simp only [hown] at h
      exact Except.noConfusion h
    | ok ow =>
      simp only [hown] at h
      cases hgrp : lookupGroup env s.st_gid with
      | error e =>
        simp only [hgrp] at h
        exact Except.noConfusion h
      | ok gw =>
        simp only [hgrp] at h
        cases hdg : digestStep fs p flag with
        | error e =>
          simp only [hdg] at h
          exact Except.noConfusion h
        | ok dg =>
          simp only [hdg, Except.ok.injEq] at h
          refine ⟨s, ow, gw, dg, rfl, hown, hgrp, rfl, h.symm, ?_⟩
          unfold metadataSyscalls get_file_metadata_tr
          rw [hstat]
          simp only [hown, hgrp, hdg]

/-! ## The claims -/

/-- C1 counterexample: for `"flaky"` the initial stat succeeds, but reading
the content raises an `OSError` that is not a `PermissionError`
(`errno EIO`, say).  `get_file_metadata(..., compute_hash=True)` then
propagates the exception instead of returning a record carrying the
`"(access denied)"` sentinel — the `except` on line 77 names
`PermissionError` only, so not *every* read error is converted. -/
theorem C1_counterexample :
    pyStat fs0 "flaky" = some (mkStat 3 33188) ∧
    pyOpenRead fs0 "flaky" = Except.error PyErr.ioError ∧
    PyErr.ioError ≠ PyErr.permissionError ∧
    get_file_metadata env0 fs0 "flaky" true = Except.error PyErr.ioError := by
  decide

/-- C1 (amended): when the content read raises specifically a
`PermissionError` after the initial stat succeeded, `collect(path,
includeDigest=true)` still returns a complete record whose `contentDigest`
is the sentinel `"(access denied)"`; other read errors propagate. -/
theorem C1_permission_error_sentinel (env : SysEnv) (fs : FS) (p : String)
    (s : StatInfo) (ow gw : Option String)
    (hstat : pyStat fs p = some s)
    (hown : lookupOwner env s.st_uid = Except.ok ow)
    (hgrp : lookupGroup env s.st_gid = Except.ok gw)
    (hread : pyOpenRead fs p = Except.error PyErr.permissionError) :
    ∃ m, get_file_metadata env fs p true = Except.ok m ∧
      m.sha1_hash = some "(access denied)" := by
  have hdg : digestStep fs p true = Except.ok (some "(access denied)") := by
    simp [digestStep, compute_sha1, hread]
  refine ⟨{ full_path := pyResolve fs p, name := pathName p
            stem := pathStemOf p, suffix := pathSuffixOf p
            suffixes := pathSuffixesOf p, parent := pathParent p
            size_bytes := s.st_size, created := s.st_ctime
            modified := s.st_mtime, accessed := s.st_atime
            mode := s.st_mode
            permissions := pyOct (Nat.land s.st_mode 511)
            n_links := s.st_nlink, owner_uid := s.st_uid
            owner_name := ow, group_gid := s.st_gid, group_name := gw
            is_file := pyIsFile fs p, is_dir := pyIsDir fs p
            is_symlink := pyIsSymlink fs p
            mime_type := env.guessMime p
            sha1_hash := some "(access denied)" }, ?_, rfl⟩
  unfold get_file_metadata get_file_metadata_tr
  rw [hstat]
  simp only [hown, hgrp, hdg]

/-- C1 witness: the fixture file `"secret"` stats fine but reading it
raises `PermissionError`; collection succeeds with the sentinel. -/
theorem C1_witness :
    pyOpenRead fs0 "secret" = Except.error PyErr.permissionError ∧
    (∃ m, get_file_metadata env0 fs0 "secret" true = Except.ok m ∧
      m.sha1_hash = some "(access denied)") :=
  ⟨by decide,
   C1_permission_error_sentinel env0 fs0 "secret" (mkStat 5 33024) none none
     (by decide) (by decide) (by decide) (by decide)⟩

/-- C2 counterexample: for `"archive.tar.gz"` the collected record has
`allExtensions = [".tar", ".gz"]` as claimed, but its `stem` is
`"archive.tar"`, not `"archive"` — `pathlib`'s `stem` strips only the last
suffix. -/
theorem C2_counterexample :
    get_file_metadata env0 fs0 "archive.tar.gz" false = Except.ok tarMeta ∧
    tarMeta.suffixes = [".tar", ".gz"] ∧
    tarMeta.stem = "archive.tar" ∧ tarMeta.stem ≠ "archive" := by
  decide

/-- C2 (amended): for the input filename `"archive.tar.gz"` any successful
collection returns `allExtensions = [".tar", ".gz"]` (ordered) and
`stem = "archive.tar"` (the name with only the final suffix stripped),
both derived purely from the path string. -/
theorem C2_extension_decomposition (env : SysEnv) (fs : FS) (flag : Bool)
    (m : FileMeta)
    (h : get_file_metadata env fs "archive.tar.gz" flag = Except.ok m) :
    m.suffixes = [".tar", ".gz"] ∧ m.stem = "archive.tar" := by
  obtain ⟨s, ow, gw, dg, _, _, _, _, hm, _⟩ := get_tr_ok _ _ _ _ _ h
  subst hm
  constructor
  · show pathSuffixesOf "archive.tar.gz" = [".tar", ".gz"]
    decide
  · show pathStemOf "archive.tar.gz" = "archive.tar"
    decide

/-- C2 witness: concrete instantiation on the fixture filesystem. -/
theorem C2_witness :
    get_file_metadata env0 fs0 "archive.tar.gz" false = Except.ok tarMeta ∧
    (tarMeta.suffixes = [".tar", ".gz"] ∧ tarMeta.stem = "archive.tar") :=
  ⟨by decide, C2_extension_decomposition env0 fs0 false tarMeta (by decide)⟩

/-- C3 counterexample: `"link"` is a symlink whose resolved target is a
regular file (not a symlink), yet the collected record reports
`is_symlink = true` (alongside `is_file = true`) — so the three booleans
are not all derived from a single follow-symlinks stat of the resolved
path, and for `isSymlink` the record classifies the link itself, not the
resolved target. -/
theorem C3_counterexample :
    (finalEntry fs0 "link").map (fun e => isKindRegular e.kind) =
      some true ∧
    isKindSymlink EntryKind.regular = false ∧
    get_file_metadata envNames fs0 "link" false = Except.ok linkMeta ∧
    linkMeta.is_symlink = true ∧ linkMeta.is_file = true := by
  decide

/-- C3 (amended): `isRegularFile` and `isDirectory` classify the resolved
target (follow-symlinks checks), while `isSymlink` is a no-follow check of
the path's own entry; hence for a symlink resolving to a regular file the
record has `isRegularFile = true`, `isDirectory = false` and
`isSymlink = true`. -/
theorem C3_symlink_classification (env : SysEnv) (fs : FS) (p t : String)
    (e : FSEntry) (flag : Bool) (m : FileMeta)
    (hlink : fs.entries p = some e) (hkind : e.kind = EntryKind.symlink t)
    (hreg : (finalEntry fs p).map (fun e2 => isKindRegular e2.kind) =
      some true)
    (h : get_file_metadata env fs p flag = Except.ok m) :
    m.is_file = true ∧ m.is_dir = false ∧ m.is_symlink = true := by
  obtain ⟨s, ow, gw, dg, _, _, _, _, hm, _⟩ := get_tr_ok _ _ _ _ _ h
  subst hm
  refine ⟨?_, ?_, ?_⟩
  · show pyIsFile fs p = true
    unfold pyIsFile
    cases hfe : finalEntry fs p with
    | none =>
      rw [hfe] at hreg
      simp at hreg
    | some e2 =>
      rw [hfe] at hreg
      simp at hreg
      show isKindRegular e2.kind = true
      exact hreg
  · show pyIsDir fs p = false
    unfold pyIsDir
    cases hfe : finalEntry fs p with
    | none => rfl
    | some e2 =>
      rw [hfe] at hreg
      simp at hreg
      show isKindDir e2.kind = false
      cases hk2 : e2.kind <;> simp_all [isKindRegular, isKindDir]
  · show pyIsSymlink fs p = true
    unfold pyIsSymlink
    simp only [hlink]
    rw [hkind]
    rfl

/-- C3 witness: the fixture symlink `"link"` → regular `"/target"`. -/
theorem C3_witness :
    fs0.entries "link" =
      some ⟨EntryKind.symlink "/target", mkStat 7 41471,
        Except.error PyErr.ioError⟩ ∧
    get_file_metadata envNames fs0 "link" false = Except.ok linkMeta ∧
    (linkMeta.is_file = true ∧ linkMeta.is_dir = false ∧
     linkMeta.is_symlink = true) :=
  ⟨by decide, by decide,
   C3_symlink_classification envNames fs0 "link" "/target"
     ⟨EntryKind.symlink "/target", mkStat 7 41471,
       Except.error PyErr.ioError⟩ false linkMeta
     (by decide) (by decide) (by decide) (by decide)⟩

/-- C4 counterexample: collecting `"file.txt"` (no digest) issues four
stat-equivalent queries — the attribute `stat()` on line 59 plus the
`is_file()`, `is_dir()` and `is_symlink()` checks on lines 98–100 — not
exactly one. -/
theorem C4_counterexample :
    (metadataSyscalls env0 fs0 "file.txt" false).countP
      (fun s => isStatEquiv s) = 4 ∧
    ¬ (metadataSyscalls env0 fs0 "file.txt" false).countP
      (fun s => isStatEquiv s) = 1 := by
  decide

/-- C4 (amended): every successful collection — with or without a digest —
issues exactly the query trace `stat`, `getpwuid`, `getgrgid`, then (only
when a digest was requested) the content open-and-read, then `resolve`,
`stat` (is_file), `stat` (is_dir), `lstat` (is_symlink): four
stat-equivalent queries in all cases, one attribute stat plus three type
checks, and no mutating operation, while all path-string fields (name,
stem, extension(s), parent) are computed by pure string parsing of the
input path with no I/O. -/
theorem C4_query_trace (env : SysEnv) (fs : FS) (p : String) (flag : Bool)
    (m : FileMeta) (h : get_file_metadata env fs p flag = Except.ok m) :
    metadataSyscalls env fs p flag =
      ([Syscall.statQ p, Syscall.getpwuidQ m.owner_uid,
        Syscall.getgrgidQ m.group_gid] ++
        (if flag then [Syscall.openReadQ p] else [])) ++
       [Syscall.resolveQ p, Syscall.statQ p, Syscall.statQ p,
        Syscall.lstatQ p] ∧
    (metadataSyscalls env fs p flag).countP
      (fun s => isStatEquiv s) = 4 ∧
    (m.name = pathName p ∧ m.stem = pathStemOf p ∧
     m.suffix = pathSuffixOf p ∧ m.suffixes = pathSuffixesOf p ∧
     m.parent = pathParent p) := by
  obtain ⟨s, ow, gw, dg, hstat, hown, hgrp, hdg, hm, htr⟩ :=
    get_tr_ok _ _ _ _ _ h
  subst hm
  refine ⟨?_, ?_, rfl, rfl, rfl, rfl, rfl⟩
  · rw [htr]
  · rw [htr]
    cases flag <;> rfl

/-- C4 witness: a digest-enabled collection of `"secret"` (so the trace
contains the open-and-read) still issues exactly four stat-equivalent
queries. -/
theorem C4_witness :
    get_file_metadata env0 fs0 "secret" true = Except.ok secretMeta ∧
    metadataSyscalls env0 fs0 "secret" true =
      ([Syscall.statQ "secret", Syscall.getpwuidQ secretMeta.owner_uid,
        Syscall.getgrgidQ secretMeta.group_gid] ++
        (if true then [Syscall.openReadQ "secret"] else [])) ++
       [Syscall.resolveQ "secret", Syscall.statQ "secret",
        Syscall.statQ "secret", Syscall.lstatQ "secret"] ∧
    (metadataSyscalls env0 fs0 "secret" true).countP
      (fun s => isStatEquiv s) = 4 :=
  ⟨by decide,
   (C4_query_trace env0 fs0 "secret" true secretMeta (by decide)).1,
   (C4_query_trace env0 fs0 "secret" true secretMeta (by decide)).2.1⟩

/-- C5 counterexample: the `try`/`except` on lines 62–69 catches
`KeyError` only.  In an environment whose directory service fails with an
`OSError` instead (service unavailable), the lookup exception propagates
out of `get_file_metadata` — collection is interrupted and no record is
returned, refuting "never raises an exception that interrupts metadata
collection ... any lookup failure whatsoever". -/
theorem C5_counterexample :
    envBroken.getpwuid 1000 = Except.error PyErr.ioError ∧
    PyErr.ioError ≠ PyErr.keyError ∧
    pyStat fs0 "file.txt" = some (mkStat 2 33188) ∧
    get_file_metadata envBroken fs0 "file.txt" false =
      Except.error PyErr.ioError ∧
    pyMain envBroken fs0 "file.txt" false = ExitOutcome.errOS := by
  decide

/-- C5 (amended): a lookup failure raised as `KeyError` — the unknown-id
signal, the only exception lines 62–69 catch — yields an absent
`ownerName`/`groupName` and collection still returns a complete record;
a lookup failure raised as any other exception propagates and interrupts
collection. -/
theorem C5_lookup_failure_absent (env : SysEnv) (fs : FS) (p : String)
    (s : StatInfo)
    (hstat : pyStat fs p = some s)
    (hu : env.getpwuid s.st_uid = Except.error PyErr.keyError)
    (hg : env.getgrgid s.st_gid = Except.error PyErr.keyError) :
    ∃ m, get_file_metadata env fs p false = Except.ok m ∧
      m.owner_name = none ∧ m.group_name = none := by
  have hown : lookupOwner env s.st_uid = Except.ok none := by
    unfold lookupOwner
    rw [hu]
  have hgrp : lookupGroup env s.st_gid = Except.ok none := by
    unfold lookupGroup
    rw [hg]
  refine ⟨{ full_path := pyResolve fs p, name := pathName p
            stem := pathStemOf p, suffix := pathSuffixOf p
            suffixes := pathSuffixesOf p, parent := pathParent p
            size_bytes := s.st_size, created := s.st_ctime
            modified := s.st_mtime, accessed := s.st_atime
            mode := s.st_mode
            permissions := pyOct (Nat.land s.st_mode 511)
            n_links := s.st_nlink, owner_uid := s.st_uid
            owner_name := none, group_gid := s.st_gid, group_name := none
            is_file := pyIsFile fs p, is_dir := pyIsDir fs p
            is_symlink := pyIsSymlink fs p
            mime_type := env.guessMime p
            sha1_hash := none }, ?_, rfl, rfl⟩
  unfold get_file_metadata get_file_metadata_tr
  rw [hstat]
  simp only [hown, hgrp]
  rfl

/-- C5 witness: `env0` has no mapping for any id; collection of
`"file.txt"` still succeeds with both names absent. -/
theorem C5_witness :
    env0.getpwuid 1000 = Except.error PyErr.keyError ∧
    (∃ m, get_file_metadata env0 fs0 "file.txt" false = Except.ok m ∧
      m.owner_name = none ∧ m.group_name = none) :=
  ⟨by decide,
   C5_lookup_failure_absent env0 fs0 "file.txt" (mkStat 2 33188)
     (by decide) (by decide) (by decide)⟩

/-- C6: the chunked streaming digest equals the naive whole-content hash
for every positive chunk size — in particular for sizes 1, 64 and 8192 —
because folding `update` over the reads concatenates exactly the original
byte content. -/
theorem C6_chunk_size_irrelevant (k : Nat) (content : List Nat)
    (hk : 0 < k) :
    sha1ChunkedDigest k content = sha1hex content ∧
    sha1ChunkedDigest 1 content = sha1hex content ∧
    sha1ChunkedDigest 64 content = sha1hex content ∧
    sha1ChunkedDigest 8192 content = sha1hex content := by
  have base : ∀ j : Nat, j ≠ 0 →
      sha1ChunkedDigest j content = sha1hex content := by
    intro j hj
    unfold sha1ChunkedDigest sha1Hexdigest
    rw [foldl_sha1Update, readChunks_flatten j hj]
    rfl
  exact ⟨base k (Nat.pos_iff_ne_zero.mp hk), base 1 (by decide),
    base 64 (by decide), base 8192 (by decide)⟩

/-- C6 witness: chunk size 1 on the bytes of `"abc"`. -/
theorem C6_witness :
    0 < 1 ∧ sha1ChunkedDigest 1 [97, 98, 99] = sha1hex [97, 98, 99] :=
  ⟨by decide, (C6_chunk_size_irrelevant 1 [97, 98, 99] (by decide)).1⟩

/-- C7: the driver validates before producing output — a path that does
not resolve to an existing entry fails with the not-found error (no record
is produced), and an existing entry that is not a regular file fails with
the not-a-file error. -/
theorem C7_validation (env : SysEnv) (fs : FS) (p : String) (flag : Bool) :
    (pyExists fs p = false → pyMain env fs p flag = ExitOutcome.errNotFound) ∧
    (pyExists fs p = true → pyIsFile fs p = false →
      pyMain env fs p flag = ExitOutcome.errNotAFile) := by
  constructor
  · intro h
    unfold pyMain
    rw [h]
    rfl
  · intro h1 h2
    unfold pyMain
    rw [h1, h2]
    rfl

/-- C7 witness: a missing path and a directory on the fixture
filesystem. -/
theorem C7_witness :
    pyExists fs0 "missing" = false ∧
    pyMain env0 fs0 "missing" false = ExitOutcome.errNotFound ∧
    pyExists fs0 "somedir" = true ∧ pyIsFile fs0 "somedir" = false ∧
    pyMain env0 fs0 "somedir" false = ExitOutcome.errNotAFile :=
  ⟨by decide, (C7_validation env0 fs0 "missing" false).1 (by decide),
   by decide, by decide,
   (C7_validation env0 fs0 "somedir" false).2 (by decide) (by decide)⟩

/-- C8: in every collected record, `permissionsOctal` is the low nine bits
of `rawMode` (`mode & 0o777`) rendered by `oct`, so it is determined by
`rawMode` alone and records with equal modes get equal permission
strings. -/
theorem C8_permissions_from_mode (enva envb : SysEnv) (fsa fsb : FS)
    (pa pb : String) (fa fb : Bool) (m1 m2 : FileMeta)
    (h1 : get_file_metadata enva fsa pa fa = Except.ok m1)
    (h2 : get_file_metadata envb fsb pb fb = Except.ok m2) :
    m1.permissions = pyOct (Nat.land m1.mode 511) ∧
    (m1.mode = m2.mode → m1.permissions = m2.permissions) := by
  obtain ⟨s1, _, _, _, _, _, _, _, hm1, _⟩ := get_tr_ok _ _ _ _ _ h1
  obtain ⟨s2, _, _, _, _, _, _, _, hm2, _⟩ := get_tr_ok _ _ _ _ _ h2
  subst hm1
  subst hm2
  refine ⟨rfl, ?_⟩
  intro hmode
  have hs : s1.st_mode = s2.st_mode := hmode
  show pyOct (Nat.land s1.st_mode 511) = pyOct (Nat.land s2.st_mode 511)
  rw [hs]

/-- C8 witness: concrete instantiation on the fixture filesystem. -/
theorem C8_witness :
    get_file_metadata env0 fs0 "file.txt" false = Except.ok fileTxtMeta ∧
    fileTxtMeta.permissions = pyOct (Nat.land fileTxtMeta.mode 511) :=
  ⟨by decide,
   (C8_permissions_from_mode env0 env0 fs0 fs0 "file.txt" "file.txt"
     false false fileTxtMeta fileTxtMeta (by decide) (by decide)).1⟩

/-- C9: the digest streams the content as a fold over `read(8192)` chunks,
each of length at most 8192 — the O(chunk size) working-set property: the
accumulator is fed one bounded chunk at a time and the full content is
never materialised as a single read. -/
theorem C9_streaming_bounded (fs : FS) (p : String) (content : List Nat)
    (hread : pyOpenRead fs p = Except.ok content) :
    (∀ c ∈ readChunks 8192 content, c.length ≤ 8192) ∧
    compute_sha1 fs p =
      Except.ok (sha1Hexdigest
        ((readChunks 8192 content).foldl sha1Update sha1Init)) := by
  refine ⟨fun c hc => readChunks_length_le 8192 content c hc, ?_⟩
  rw [compute_sha1_ok fs p content hread]
  rfl

/-- C9 witness: the two-byte fixture file. -/
theorem C9_witness :
    pyOpenRead fs0 "file.txt" = Except.ok [104, 105] ∧
    ((∀ c ∈ readChunks 8192 [104, 105], c.length ≤ 8192) ∧
     compute_sha1 fs0 "file.txt" =
       Except.ok (sha1Hexdigest
         ((readChunks 8192 [104, 105]).foldl sha1Update sha1Init))) :=
  ⟨by decide, C9_streaming_bounded fs0 "file.txt" [104, 105] (by decide)⟩

/-- C10: the record's name, stem, suffix(es) and parent are pure functions
of the input path string as given (before resolution), while `full_path`
is the resolved absolute path; in particular the parent of the relative
input `"file.txt"` is `"."`, which need not be the parent of
`full_path`. -/
theorem C10_fields_from_input_path (env : SysEnv) (fs : FS) (p : String)
    (flag : Bool) (m : FileMeta)
    (h : get_file_metadata env fs p flag = Except.ok m) :
    (m.name = pathName p ∧ m.stem = pathStemOf p ∧
     m.suffix = pathSuffixOf p ∧ m.suffixes = pathSuffixesOf p ∧
     m.parent = pathParent p ∧ m.full_path = pyResolve fs p) ∧
    pathParent "file.txt" = "." := by
  obtain ⟨s, ow, gw, dg, _, _, _, _, hm, _⟩ := get_tr_ok _ _ _ _ _ h
  subst hm
  exact ⟨⟨rfl, rfl, rfl, rfl, rfl, rfl⟩, by decide⟩

/-- C10 witness: for the symlink `"link"` the name field is the link's own
name while `full_path` is the resolved target, and the parent field
(`"."`) differs from the parent of `full_path` (`"/"`). -/
theorem C10_witness :
    get_file_metadata envNames fs0 "link" false = Except.ok linkMeta ∧
    ((linkMeta.name = pathName "link" ∧
      linkMeta.stem = pathStemOf "link" ∧
      linkMeta.suffix = pathSuffixOf "link" ∧
      linkMeta.suffixes = pathSuffixesOf "link" ∧
      linkMeta.parent = pathParent "link" ∧
      linkMeta.full_path = pyResolve fs0 "link") ∧
     pathParent "file.txt" = ".") ∧
    linkMeta.name = "link" ∧ linkMeta.full_path = "/target" ∧
    linkMeta.parent = "." ∧ pathParent linkMeta.full_path ≠ "." :=
  ⟨by decide,
   C10_fields_from_input_path envNames fs0 "link" false linkMeta (by decide),
   by decide, by decide, by decide, by decide⟩
